import Mathlib

/-
  Verification of the dumbot repository (src/dumbot.py, src/dumbaio.py):
  a shallow embedding of the response-envelope data model (`Obj`/`Lst`),
  the request encoder, the RPC `request` closure, the connection pool
  (`Bot._request`), the poll loop body (`Bot._run`), the dispatcher
  (`Bot._on_update`) and the trigger resolution (`Bot._get_cmd`,
  `Bot._get_inb`), together with theorems about the specified properties.
-/

/-- The Python exceptions that the modelled code can raise or store.
`connectionError` and `osError` are both `OSError` instances at runtime
(`ConnectionError` is an `OSError` subclass); `cancelledError` and
`incompleteReadError` are the asyncio exceptions named in `Bot._run`'s
isinstance check. -/
inductive PyErr where
  | keyError (key : String)
  | typeError (msg : String)
  | unicodeEncodeError
  | connectionError (msg : String)
  | osError (msg : String)
  | incompleteReadError
  | cancelledError
  | jsonDecodeError (msg : String)
  | indexError
  deriving DecidableEq

/-- A plain Python value as it appears in decoded JSON and in the
envelope classes: `null`/`bool`/`int`/`str` scalars, Python `bytes`
(modelled as a string of bytes), exception objects (`exc`, stored in
error envelopes under the `error` key), lists (`arr`) and dicts
(`dict`, association lists in insertion order, mirroring Python dict
ordering). -/
inductive J where
  | null
  | bool (b : Bool)
  | int (n : Int)
  | str (s : String)
  | bytes (s : String)
  | exc (e : PyErr)
  | arr (xs : List J)
  | dict (fs : List (String × J))

/-- Python `str(e)` for an exception: the human-readable description stored in
the failure envelope.  `str` of a `KeyError` renders the repr of the
key. -/
def PyErr.pyMsg : PyErr → String
  | .keyError k => "'" ++ k ++ "'"
  | .typeError m => m
  | .unicodeEncodeError => "ordinal not in range(128)"
  | .connectionError m => m
  | .osError m => m
  | .incompleteReadError => "incomplete read"
  | .cancelledError => ""
  | .jsonDecodeError m => m
  | .indexError => "index out of range"

/-- The check `isinstance(e, (asyncio.CancelledError, asyncio.IncompleteReadError,
OSError))`, the check in `Bot._run` deciding whether a failed
`getUpdates` ends the loop (dumbot.py lines 443-444). -/
def PyErr.isConnClass : PyErr → Bool
  | .connectionError _ => true
  | .osError _ => true
  | .incompleteReadError => true
  | .cancelledError => true
  | _ => false

/-- Python `dict.get` on a string-keyed dict. -/
def getJ : List (String × J) → String → Option J
  | [], _ => none
  | (k, v) :: rest, key => if k = key then some v else getJ rest key

/-- Python `d[key] = v`: replaces in place when the key is present
(dict update keeps insertion position), appends otherwise. -/
def setJ : List (String × J) → String → J → List (String × J)
  | [], key, v => [(key, v)]
  | (k, w) :: rest, key, v =>
      if k = key then (k, v) :: rest else (k, w) :: setJ rest key v

/-- Python `dict.pop(key, None)`: drops the entry when present. -/
def removeKey : List (String × J) → String → List (String × J)
  | [], _ => []
  | (k, w) :: rest, key =>
      if k = key then rest else (k, w) :: removeKey rest key

/-- Python truthiness of a plain value: `None`, `False`, `0`, empty
strings and empty containers are falsy; exception objects are truthy. -/
def truthyJ : J → Bool
  | .null => false
  | .bool b => b
  | .int n => n != 0
  | .str s => s ≠ ""
  | .bytes s => s ≠ ""
  | .exc _ => true
  | .arr xs => !xs.isEmpty
  | .dict fs => !fs.isEmpty

namespace Dumbot

/-- A runtime value of dumbot.py's envelope layer: a raw Python value
(`prim`), an `Obj` instance (`obj`, carrying its `__dict__`), or a
`Lst` instance (`lst`, carrying its attribute `__dict__` — written by
`obj.ok = True` in `request` — and its list elements). -/
inductive O where
  | prim (p : J)
  | obj (fs : List (String × O))
  | lst (attrs : List (String × O)) (xs : List O)

/-- Python `dict.get` on an `Obj.__dict__`. -/
def getO : List (String × O) → String → Option O
  | [], _ => none
  | (k, v) :: rest, key => if k = key then some v else getO rest key

/-- The assignment `self.__dict__[name] = obj`: in-place update or append. -/
def setO : List (String × O) → String → O → List (String × O)
  | [], key, v => [(key, v)]
  | (k, w) :: rest, key, v =>
      if k = key then (k, v) :: rest else (k, w) :: setO rest key v

/-- Python truthiness of an envelope-layer value.  `Obj.__bool__`
returns `bool(self.__dict__)`; `Lst` inherits list truthiness. -/
def truthyO : O → Bool
  | .prim p => truthyJ p
  | .obj fs => !fs.isEmpty
  | .lst _ xs => !xs.isEmpty

/-- Whether a value is Python `None` (the `.get(name)` result that
triggers lazy insertion in `Obj.__getattr__`). -/
def isNone : O → Bool
  | .prim .null => true
  | _ => false

mutual
/-- Constructor `Obj.__init__`: each dict value becomes an `Obj`, each list a
`Lst`, everything else is stored as-is (dumbot.py lines 60-62). -/
def Obj_init (fs : List (String × J)) : O :=
  .obj (convFields fs)

/-- Constructor `Lst.__init__`: converts each element the same way; a fresh `Lst`
has an empty attribute dict (dumbot.py lines 109-111). -/
def Lst_init (xs : List J) : O :=
  .lst [] (convList xs)

/-- The per-value conversion applied by `Obj.__init__`/`Lst.__init__`. -/
def conv (v : J) : O :=
  match v with
  | .dict fs => Obj_init fs
  | .arr xs => Lst_init xs
  | p => .prim p

def convFields : List (String × J) → List (String × O)
  | [] => []
  | (k, v) :: rest => (k, conv v) :: convFields rest

def convList : List J → List O
  | [] => []
  | v :: rest => conv v :: convList rest
end

mutual
/-- Methods `Obj.to_dict` / `Lst.to_dict` (dumbot.py lines 100-102, 124-126):
values that are `Obj`/`Lst` instances are converted recursively, raw
values pass through; `Lst.to_dict` iterates the list elements and
ignores the attribute dict. -/
def to_dict : O → J
  | .obj fs => .dict (tdFields fs)
  | .lst _ xs => .arr (tdList xs)
  | .prim p => p

/-- The comprehension step `v.to_dict() if isinstance(v, (Obj, Lst)) else v`. -/
def td (v : O) : J :=
  match v with
  | .obj fs => .dict (tdFields fs)
  | .lst _ xs => .arr (tdList xs)
  | .prim p => p

def tdFields : List (String × O) → List (String × J)
  | [] => []
  | (k, v) :: rest => (k, td v) :: tdFields rest

def tdList : List O → List J
  | [] => []
  | v :: rest => td v :: tdList rest
end

mutual
theorem td_conv (v : J) : td (conv v) = v := by
  match v with
  | .dict fs => simpa [conv, Obj_init, td] using tdFields_convFields fs
  | .arr xs => simpa [conv, Lst_init, td] using tdList_convList xs
  | .null => simp [conv, td]
  | .bool b => simp [conv, td]
  | .int n => simp [conv, td]
  | .str s => simp [conv, td]
  | .bytes s => simp [conv, td]
  | .exc e => simp [conv, td]

theorem tdFields_convFields (fs : List (String × J)) :
    tdFields (convFields fs) = fs := by
  match fs with
  | [] => simp [convFields, tdFields]
  | (k, v) :: rest => simp [convFields, tdFields, td_conv v, tdFields_convFields rest]

theorem tdList_convList (xs : List J) : tdList (convList xs) = xs := by
  match xs with
  | [] => simp [convList, tdList]
  | v :: rest => simp [convList, tdList, td_conv v, tdList_convList rest]
end

/-- Round trip on the dumbot pair: `Obj(**fs).to_dict() == fs`. -/
theorem to_dict_Obj_init (fs : List (String × J)) :
    to_dict (Obj_init fs) = .dict fs := by
  simpa [Obj_init, to_dict] using tdFields_convFields fs

/-- Round trip on the dumbot pair: `Lst(xs).to_dict() == xs`. -/
theorem to_dict_Lst_init (xs : List J) :
    to_dict (Lst_init xs) = .arr xs := by
  simpa [Lst_init, to_dict] using tdList_convList xs

/-- Python `name.rstrip` dropping trailing underscore characters, the
normalisation applied by `Obj.__getattr__` (dumbot.py line 65). -/
def rstripU (s : String) : String :=
  ⟨(s.data.reverse.dropWhile (fun c => c = '_')).reverse⟩

/-- Method `Obj.__getattr__` (dumbot.py lines 64-70): strips trailing
underscores, looks the name up in `__dict__`; when the lookup yields
`None` (absent key, or a stored `None`), a fresh empty `Obj` is
inserted under the name and returned.  Returns the accessed value and
the possibly mutated `__dict__`. -/
def Obj_getattr (fs : List (String × O)) (name0 : String) :
    O × List (String × O) :=
  let name := rstripU name0
  match getO fs name with
  | some v => if isNone v then (.obj [], setO fs name (.obj [])) else (v, fs)
  | none => (.obj [], setO fs name (.obj []))

/-- Method `Obj.__getitem__` (dumbot.py lines 72-77): as `__getattr__` but
without the trailing-underscore normalisation. -/
def Obj_getitem (fs : List (String × O)) (name : String) :
    O × List (String × O) :=
  match getO fs name with
  | some v => if isNone v then (.obj [], setO fs name (.obj [])) else (v, fs)
  | none => (.obj [], setO fs name (.obj []))

/-- Attribute access on an envelope-layer value: `Obj.__getattr__` on
an `Obj`, the identical `Lst.__getattr__` (dumbot.py lines 113-119) on
a `Lst`'s attribute dict; raw values have no such fallback
(`AttributeError`), signalled by `none`. -/
def O_getattr : O → String → Option (O × O)
  | .obj fs, n => some ((Obj_getattr fs n).1, .obj (Obj_getattr fs n).2)
  | .lst attrs xs, n => some ((Obj_getattr attrs n).1, .lst (Obj_getattr attrs n).2 xs)
  | .prim _, _ => none

/-- The value of an attribute read, without threading the lazy-insert
mutation (the inserted empty `Obj` equals the value returned, and a
repeated read returns the same value, so pure reads agree with the
mutating ones everywhere a value is consumed). -/
def attrVal (v : O) (name : String) : O :=
  match O_getattr v name with
  | some (w, _) => w
  | none => .obj []

/-- Python `a or b` on envelope values. -/
def pyOr (a b : O) : O :=
  if truthyO a then a else b

/-- Python `str(v)` of a plain value, as interpolated into the
multipart form-data parts by the f-strings of `_encode_multipart`.
Container rendering is approximate (no claim depends on the exact
text of a rendered container). -/
def pyStr : J → String
  | .null => "None"
  | .bool b => if b then "True" else "False"
  | .int n => toString n
  | .str s => s
  | .bytes s => s
  | .exc e => e.pyMsg
  | .arr xs => "[" ++ String.intercalate ", " (pyStrList xs) ++ "]"
  | .dict fs => "\x7b" ++ String.intercalate ", " (pyStrFields fs) ++ "\x7d"
where
  pyStrList : List J → List String
    | [] => []
    | v :: rest => pyStr v :: pyStrList rest
  pyStrFields : List (String × J) → List String
    | [] => []
    | (k, v) :: rest => (k ++ ": " ++ pyStr v) :: pyStrFields rest

/-- The call `json_mod.dumps` of the argument mapping (escaping is approximate;
no claim depends on the exact serialised text). -/
def dumpsJ : J → String
  | .null => "null"
  | .bool b => if b then "true" else "false"
  | .int n => toString n
  | .str s => "\"" ++ s ++ "\""
  | .bytes s => s
  | .exc e => e.pyMsg
  | .arr xs => "[" ++ String.intercalate "," (dumpsList xs) ++ "]"
  | .dict fs => "\x7b" ++ String.intercalate "," (dumpsFields fs) ++ "\x7d"
where
  dumpsList : List J → List String
    | [] => []
    | v :: rest => dumpsJ v :: dumpsList rest
  dumpsFields : List (String × J) → List String
    | [] => []
    | (k, v) :: rest => ("\"" ++ k ++ "\":" ++ dumpsJ v) :: dumpsFields rest

/-- Whether a string survives `.encode('ascii')` (all code points below
128). -/
def asciiOnly (s : String) : Bool :=
  s.data.all (fun c => c.toNat < 128)

/-- Function `_encode_json` (dumbot.py lines 219-227): empty arguments give an
empty header fragment and no body chunks, otherwise the JSON dump with
content-type and content-length headers.  Total: every `J` value is
JSON-serialisable. -/
def encode_json (data : List (String × J)) : String × List String :=
  if data.isEmpty then ("", [])
  else
    let body := dumpsJ (.dict data)
    ("Content-Type: application/json\r\nContent-Length: " ++
       toString body.length ++ "\r\n", [body])

/-- The fallback `getattr(file['file'], 'name', None)`, reached when `file.get('name')`
is falsy: raises `KeyError` when the `file` key is absent; plain values
carry no `name` attribute, so the final `or 'unnamed'` applies. -/
def nameFromFileObj (fields : List (String × J)) : Except PyErr String :=
  match getJ fields "file" with
  | some _ => .ok "unnamed"
  | none => .error (.keyError "file")

/-- Function `_encode_multipart` (dumbot.py lines 177-216).  The boundary (a
random 128-bit value, base64-rendered, at runtime) and the
`mimetypes.guess_type` table are parameters.  Faithfully reproduces
which inputs raise: a non-dict file payload is not subscriptable
(`TypeError`), a missing `type` or `file` key raises `KeyError`, and a
file value that is neither `str` nor `bytes` fails at `len()` inside
the content-length computation (`TypeError`).  Byte lengths are
modelled as code-point counts. -/
def encode_multipart (boundary : String) (guessType : String → Option String)
    (data : List (String × J)) (file : J) :
    Except PyErr (String × List String) := do
  let parts := data.map (fun kv =>
    "--" ++ boundary ++ "\r\nContent-Disposition: form-data; name=\"" ++
      kv.1 ++ "\"\r\n\r\n" ++ pyStr kv.2 ++ "\r\n")
  let fields ← match file with
    | .dict fs => Except.ok fs
    | _ => Except.error (.typeError "file payload is not subscriptable")
  let file_type ← match getJ fields "type" with
    | some v => Except.ok v
    | none => Except.error (.keyError "type")
  let name ← match getJ fields "name" with
    | some v => if truthyJ v then Except.ok (pyStr v) else nameFromFileObj fields
    | none => nameFromFileObj fields
  let mime := match getJ fields "mime" with
    | some v =>
        if truthyJ v then pyStr v
        else (guessType name).getD "application/octet-stream"
    | none => (guessType name).getD "application/octet-stream"
  let fdata ← match getJ fields "file" with
    | some v => Except.ok v
    | none => Except.error (.keyError "file")
  let fbytes ← match fdata with
    | .str s => Except.ok s
    | .bytes s => Except.ok s
    | _ => Except.error (.typeError "object has no len")
  let buffer := parts ++
    ["--" ++ boundary ++ "\r\nContent-Disposition: form-data; name=\"" ++
       pyStr file_type ++ "\"; filename=\"" ++ name ++ "\"\r\nContent-Type: " ++
       mime ++ "\r\n\r\n",
     fbytes,
     "\r\n--" ++ boundary ++ "--"]
  .ok ("Content-Type: multipart/form-data; boundary=" ++ boundary ++
         "\r\nContent-Length: " ++
         toString (buffer.foldl (fun acc s => acc + s.length) 0) ++ "\r\n",
       buffer)

/-- The failure envelope `Obj(ok=False, error_code=-1, description=str(e),
error=e, payload=...)` built by both `except` branches of `request`
(dumbot.py lines 351-353 and 359-361). -/
def errEnvelope (e : PyErr) (payload : Option String) : O :=
  .obj [("ok", .prim (.bool false)),
        ("error_code", .prim (.int (-1))),
        ("description", .prim (.str e.pyMsg)),
        ("error", .prim (.exc e)),
        ("payload", .prim (match payload with
                           | some s => .bytes s
                           | none => .null))]

/-- The request bytes joined by `request` (dumbot.py lines 342-350):
the `POST /bot{token}/` prefix, the method name, the fixed request
line tail and `Host` header, the encoder's header fragment, the blank
line, and the body chunks. -/
def requestBytes (token method headers : String) (body : List String) : String :=
  "POST /bot" ++ token ++ "/" ++ method ++ " HTTP/1.1\r\nHost: api.telegram.org\r\n"
    ++ headers ++ "\r\n" ++ String.join body

/-- The first `try` block of `request`: `method_name.encode('ascii')`
and `headers.encode('ascii')` raise `UnicodeEncodeError` on non-ASCII
input, otherwise the joined bytes go to `Bot._request`, modelled by
the `transport` oracle. -/
def sendPayload (token method headers : String) (body : List String)
    (transport : String → Except PyErr String) : Except PyErr String :=
  if !asciiOnly method then .error .unicodeEncodeError
  else if !asciiOnly headers then .error .unicodeEncodeError
  else transport (requestBytes token method headers body)

/-- The decoding steps of the second `try` block (dumbot.py lines
356-358): `json_mod.loads` (the `decodeJson` oracle), then
`deco['ok']` — `KeyError` on a dict without the key, `TypeError` on a
non-dict — and, when `ok` is truthy, `deco = deco['result']`. -/
def decode_stage (decodeJson : String → Except PyErr J) (payload : String) :
    Except PyErr J := do
  let deco ← decodeJson payload
  match deco with
  | .dict fs =>
    match getJ fs "ok" with
    | none => .error (.keyError "ok")
    | some okv =>
      if truthyJ okv then
        match getJ fs "result" with
        | none => .error (.keyError "result")
        | some r => .ok r
      else .ok (.dict fs)
  | _ => .error (.typeError "value is not subscriptable by a str key")

/-- The `else` branch of `request` (dumbot.py lines 362-371): a dict
result gets `ok` injected (kept when already present) and becomes an
`Obj`; a list becomes a `Lst` with the `ok=True` attribute; scalars
are returned raw. -/
def wrap_result (deco : J) : O :=
  match deco with
  | .dict fs => Obj_init (setJ fs "ok" ((getJ fs "ok").getD (.bool true)))
  | .arr xs => .lst [("ok", .prim (.bool true))] (convList xs)
  | p => .prim p

/-- The dynamically generated `request` closure returned by
`Bot.__getattr__` (dumbot.py lines 329-376).  The `file` argument is
popped from the keyword arguments; a truthy file selects the multipart
encoder, which runs OUTSIDE the `try` blocks, so its exceptions
propagate (`Except.error`).  Transport failures and decode failures
are caught and returned as failure envelopes; a decoded reply is
wrapped by `wrap_result`. -/
def request (token method : String) (kwargs : List (String × J))
    (boundary : String) (guessType : String → Option String)
    (transport : String → Except PyErr String)
    (decodeJson : String → Except PyErr J) : Except PyErr O := do
  let file := (getJ kwargs "file").getD .null
  let kwargs' := removeKey kwargs "file"
  let hb ←
    if truthyJ file then encode_multipart boundary guessType kwargs' file
    else .ok (encode_json kwargs')
  .ok (match sendPayload token method hb.1 hb.2 transport with
    | .error e => errEnvelope e none
    | .ok payload =>
      match decode_stage decodeJson payload with
      | .error e => errEnvelope e (some payload)
      | .ok deco => wrap_result deco)

/-- The mutable pool state of a `Bot`: `_streams` (a deque of
`max_connections` entries, `none` marking a slot whose connection has
not been opened yet), `_busy_streams` (a set, represented as a
duplicate-free list), and the value of the counting `_semaphore`. -/
structure PoolState (S : Type) where
  streams : List (Option S)
  busy : List (Option S)
  sem : Nat

/-- Python `set.add`: append unless already present. -/
def setAdd {S : Type} [DecidableEq S] (xs : List (Option S)) (x : Option S) :
    List (Option S) :=
  if x ∈ xs then xs else xs ++ [x]

/-- Python `set.discard`: remove the element when present. -/
def setDiscard {S : Type} [DecidableEq S] (xs : List (Option S)) (x : Option S) :
    List (Option S) :=
  xs.filter (fun y => y ≠ x)

/-- Method `Bot._request` (dumbot.py lines 378-392): acquire the semaphore
(callers suspend while it is zero — modelled by the `0 < st.sem`
hypothesis of the theorems), pop the left end of the deque, mark it
busy, lazily open a connection when the slot held `none` (the `mkNew`
oracle; its failure leaves the local variable at `None`), send (the
`send` oracle), and in the `finally` discard the final local value
from the busy set, append it to the deque, and release the semaphore.
Popping an empty deque cannot happen (the deque always holds
`max_connections` entries); it is mapped to an `IndexError` result
with unchanged state. -/
def bot_request {S : Type} [DecidableEq S] (st : PoolState S)
    (mkNew : Except PyErr S) (send : S → Except PyErr String) :
    PoolState S × Except PyErr String :=
  match st.streams with
  | [] => (st, .error .indexError)
  | s0 :: rest =>
    let sem1 := st.sem - 1
    let busy1 := setAdd st.busy s0
    let fin : Option S × Except PyErr String :=
      match s0 with
      | some h => (some h, send h)
      | none =>
        match mkNew with
        | .ok h => (some h, send h)
        | .error e => (none, .error e)
    (⟨rest ++ [fin.1], setDiscard busy1 fin.1, sem1 + 1⟩, fin.2)

/-- Outcome of one iteration of the `while self._running` body of
`Bot._run` (dumbot.py lines 439-469). -/
inductive StepOut where
  | cont (last : Int) (batch : List O)
  | exit
  | unauthorized
  | illTyped

/-- Whether a stored value is one of the exception classes named in
the isinstance check of `Bot._run`. -/
def isConnExc : O → Bool
  | .prim (.exc e) => e.isConnClass
  | _ => false

/-- Python `updates.error_code == 401`: true only for the integer 401
(an empty `Obj` placeholder or any other value compares unequal). -/
def isInt401 : O → Bool
  | .prim (.int n) => n == 401
  | _ => false

/-- The elements of a `Lst` envelope (the batch the loop iterates). -/
def elemsOf : O → List O
  | .lst _ xs => xs
  | _ => []

/-- The value `updates[-1].update_id` when `updates` is a `Lst` whose last
element carries an integer `update_id`: the value the loop assigns to
`_last_update`.  `none` on every shape where Python would raise or
store a non-integer cursor. -/
def lastUpdateId (updates : O) : Option Int :=
  match updates with
  | .lst _ xs =>
    match xs.getLast? with
    | some u =>
      match O_getattr u "update_id" with
      | some (.prim (.int n), _) => some n
      | _ => none
    | none => none
  | _ => none

/-- One iteration of the poll loop body of `Bot._run` (dumbot.py lines
440-469), as a function of the current cursor and the envelope
returned by `getUpdates`:
`if not updates.ok`: a connection-class `updates.error` makes the loop
log and `return` (`exit`); otherwise `updates.error_code == 401`
raises `UnauthorizedError` (`unauthorized`); any other non-ok result
logs and `continue`s with the cursor unchanged.  An ok but falsy
(empty) result `continue`s unchanged.  Otherwise the cursor becomes
`updates[-1].update_id` and the whole batch is dispatched.  Attribute
reads thread the envelope's lazy-insertion mutation.  `illTyped` marks
the paths where Python would raise (`AttributeError` on a scalar
envelope) or continue with a non-integer cursor (an `updates[-1]` that
is not an integer-carrying update); they are unreachable for
well-formed `getUpdates` replies. -/
def runStep (last : Int) (updates : O) : StepOut :=
  match O_getattr updates "ok" with
  | none => .illTyped
  | some (okv, updates1) =>
    if truthyO okv = false then
      match O_getattr updates1 "error" with
      | none => .illTyped
      | some (errv, updates2) =>
        if isConnExc errv then .exit
        else
          match O_getattr updates2 "error_code" with
          | none => .illTyped
          | some (ecv, _) =>
            if isInt401 ecv then .unauthorized else .cont last []
    else if truthyO updates1 = false then .cont last []
    else
      match lastUpdateId updates1 with
      | some n => .cont n (elemsOf updates1)
      | none => .illTyped

/-- The cursor after one iteration (unchanged when the loop stops). -/
def stepCursor (last : Int) (updates : O) : Int :=
  match runStep last updates with
  | .cont n _ => n
  | _ => last

/-- The cursor after consuming a sequence of `getUpdates` replies; the
loop stops at the first reply that exits, raises, or is ill-typed. -/
def runSeq (last : Int) : List O → Int
  | [] => last
  | r :: rs =>
    match runStep last r with
    | .cont n _ => runSeq n rs
    | _ => last

/-- Environment assumption on one `getUpdates` reply: the remote
honours the requested `offset = cursor + 1`, i.e. whatever update id
the loop would extract from the batch is at least `offset`. -/
def HonorsOffset (last : Int) (updates : O) : Prop :=
  ∀ n : Int, lastUpdateId updates = some n → last + 1 ≤ n

/-- The same assumption along a run: each reply honours the offset the
loop requests at the point the reply is consumed. -/
def HonorsSeq : Int → List O → Prop
  | _, [] => True
  | last, r :: rs => HonorsOffset last r ∧ HonorsSeq (stepCursor last r) rs

/-- Method `Bot._get_inb` (dumbot.py lines 514-520): the registered pattern
triggers, tried strictly in registration order; a trigger is the
`match` method of the compiled anchored regex (abstracted here as a
function from the data string to an optional match object, which is
truthy exactly when not `None`); the first success returns the handler
with its match, otherwise `(None, None)`. -/
def get_inb {M H : Type} :
    List ((String → Option M) × H) → String → Option H × Option M
  | [], _ => (none, none)
  | (t, f) :: rest, data =>
    match t data with
    | some m => (some f, some m)
    | none => get_inb rest data

/-- Python `str.casefold`, modelled as per-character lowercasing.
Python strings are sequences of code points, modelled as `List Char`. -/
def casefold (s : List Char) : List Char :=
  s.map Char.toLower

/-- The Python slice `txt[1:stop]` (with the usual clamping of the
stop index and the counts-from-the-end meaning of a negative stop). -/
def pySliceFrom1 (xs : List Char) (stop : Int) : List Char :=
  let n : Int := xs.length
  let st := if stop < 0 then max 0 (n + stop) else min stop n
  (xs.take st.toNat).drop 1

/-- Python `s == t` between an envelope value and a string literal:
true only when the value is that string (an empty `Obj` placeholder
compares unequal to any string). -/
def isStrEq (v : O) (t : String) : Bool :=
  match v with
  | .prim (.str s) => s == t
  | _ => false

/-- Python `v == 0` between an envelope value and an integer literal. -/
def isIntEq (v : O) (t : Int) : Bool :=
  match v with
  | .prim (.int n) => n == t
  | _ => false

/-- The indexing `x[0]` inside `_get_cmd`: on a `Lst` this is list indexing
(`IndexError` on an empty list — possible when a message carries an
empty `entities` list); on an `Obj` it is `Obj.__getitem__(0)`, which
returns a fresh empty `Obj` (the integer key cannot collide with the
string keys of a decoded message); a raw value raises `TypeError`. -/
def index0 : O → Except Unit O
  | .lst _ (x :: _) => .ok x
  | .lst _ [] => .error ()
  | .obj _ => .ok (.obj [])
  | .prim _ => .error ()

/-- The command-trigger dict `_cmd_triggers`: keys are the (lowercased
by the `command` decorator) command strings, values the handlers,
identified by a number. -/
def lookupCmd : List (List Char × Nat) → List Char → Option Nat
  | [], _ => none
  | (k, h) :: rest, key => if k = key then some h else lookupCmd rest key

/-- Method `Bot._get_cmd` (dumbot.py lines 500-512).  `triggers` is
`self._cmd_triggers`, `meUsername` is `self._me.username`.  Returns
`.error ()` on the paths where Python raises (indexing an empty
entities `Lst`, slicing a non-string `text`, a non-integer entity
`length`) — such exceptions are caught by `_on_update`'s handler
isolation.  Attribute reads are modelled by the pure `attrVal` (the
lazy-insertion side effect never changes the value an access returns,
see `Obj_getattr`). -/
def get_cmd (triggers : List (List Char × Nat)) (meUsername : List Char)
    (msg : O) : Except Unit (Option Nat) :=
  if triggers.isEmpty then .ok none
  else if truthyO (attrVal msg "forward_date") &&
          !isStrEq (attrVal (attrVal msg "chat") "type") "private" then .ok none
  else do
    let ent ← index0 (pyOr (attrVal msg "entities") (attrVal msg "caption_entities"))
    let txtV := pyOr (pyOr (attrVal msg "text") (attrVal msg "caption"))
                     (.prim (.str ""))
    if isIntEq (attrVal ent "offset") 0 &&
       isStrEq (attrVal ent "type") "bot_command" then
      match txtV, attrVal ent "length" with
      | .prim (.str s), .prim (.int len) =>
        let cmd := casefold (pySliceFrom1 s.data len)
        match cmd.findIdx? (fun c => c = '@') with
        | none => .ok (lookupCmd triggers cmd)
        | some usr =>
          if cmd.drop (usr + 1) = casefold meUsername then
            .ok (lookupCmd triggers (cmd.take usr))
          else .ok none
      | _, _ => .error ()
    else .ok none

/-- A command message as the poll loop sees it: `text` holding the
token, a single `bot_command` entity at offset zero spanning the
token, not forwarded. -/
def mkCmdMsg (tok : List Char) : O :=
  .obj [("text", .prim (.str ⟨tok⟩)),
        ("entities", .lst [] [.obj [("offset", .prim (.int 0)),
                                    ("type", .prim (.str "bot_command")),
                                    ("length", .prim (.int tok.length))]])]

/-- Outcome of invoking a user handler. -/
inductive HOut where
  | ok
  | exn
  deriving DecidableEq

/-- The observable calls `Bot._on_update` makes, in order. -/
inductive Action where
  | callHandler (h : Nat)
  | callDefault
  | ack (cqid : O)
  | log

/-- Method `Bot._on_update` (dumbot.py lines 475-495) as the ordered list of
calls it performs.  `inb` is `self._inb_triggers` (handlers identified
by numbers), `outc h` the outcome of awaiting handler `h`, `defOutc`
the outcome of `self.on_update`.  In the callback branch the
acknowledgement `answerCallbackQuery(callback_query_id=cq.id)` runs
INSIDE the `try`, strictly after the awaited handler, so a raising
handler skips it and lands in the `except` (`log`).  In the message
branch an exception raised by `_get_cmd` itself is also caught.  A
callback query whose `data` is not a string makes the first compiled
pattern raise `TypeError` (no trigger is called when the table is
empty, in which case the default handler runs). -/
def on_update_model {M : Type} (inb : List ((String → Option M) × Nat))
    (cmdTriggers : List (List Char × Nat)) (meUsername : List Char)
    (outc : Nat → HOut) (defOutc : HOut)
    (updateFs : List (String × O)) : List Action :=
  let cqRes := Obj_getattr updateFs "callback_query"
  let cq := cqRes.1
  if truthyO cq then
    match O_getattr cq "data" with
    | none => [.log]
    | some (dataV, cq1) =>
      let inbRes : Except Unit (Option Nat × Option M) :=
        match inb, dataV with
        | [], _ => .ok (none, none)
        | _, .prim (.str s) => .ok (get_inb inb s)
        | _, _ => .error ()
      match inbRes with
      | .error _ => [.log]
      | .ok (cb, _) =>
        let invoked : Action × HOut :=
          match cb with
          | some h => (.callHandler h, outc h)
          | none => (.callDefault, defOutc)
        match invoked.2 with
        | .exn => [invoked.1, .log]
        | .ok =>
          match O_getattr cq1 "id" with
          | none => [invoked.1, .log]
          | some (idv, _) => [invoked.1, .ack idv]
  else
    match get_cmd cmdTriggers meUsername (Obj_getattr cqRes.2 "message").1 with
    | .error _ => [.log]
    | .ok (some h) =>
      match outc h with
      | .ok => [.callHandler h]
      | .exn => [.callHandler h, .log]
    | .ok none =>
      match defOutc with
      | .ok => [.callDefault]
      | .exn => [.callDefault, .log]

/-- How many acknowledgement calls a dispatch performed. -/
def countAcks (as : List Action) : Nat :=
  (as.filter (fun a => match a with | .ack _ => true | _ => false)).length

end Dumbot

namespace Dumbaio

/-- A runtime value of dumbaio.py's envelope layer: a raw Python value
(`prim`), a plain Python list (`plist`), a plain dict (`adict`), or a
dumbaio `Obj` instance (`aobj`, carrying its `__dict__`).  A dumbaio
`Lst` is an `Obj` subclass whose `UserList.__init__` stores the
elements as a plain list under the `data` key of `__dict__`, so it is
represented as an `aobj` with a `data` field. -/
inductive A where
  | prim (p : J)
  | plist (xs : List A)
  | adict (fs : List (String × A))
  | aobj (fs : List (String × A))

mutual
/-- dumbaio `Obj.__init__` (dumbaio.py lines 25-27): dict values become
`Obj`, list values become `Lst`, the rest is stored as-is. -/
def aObj_init (fs : List (String × J)) : A :=
  .aobj (aConvFields fs)

/-- dumbaio `Lst.__init__` (dumbaio.py lines 55-58): `Obj.__init__`
leaves `__dict__` empty, then `UserList.__init__` stores the converted
elements as a plain list under the `data` attribute. -/
def aLst_init (xs : List J) : A :=
  .aobj [("data", .plist (aConvList xs))]

def aConv (v : J) : A :=
  match v with
  | .dict fs => aObj_init fs
  | .arr xs => aLst_init xs
  | p => .prim p

def aConvFields : List (String × J) → List (String × A)
  | [] => []
  | (k, v) :: rest => (k, aConv v) :: aConvFields rest

def aConvList : List J → List A
  | [] => []
  | v :: rest => aConv v :: aConvList rest
end

mutual
/-- dumbaio `Obj.to_dict` (dumbaio.py lines 46-48): only values that
are `Obj` instances are converted recursively (`isinstance(v, Obj)`);
plain lists — in particular the `data` attribute a `Lst` keeps its
elements in — pass through untouched.  `Lst` has no `to_dict` of its
own and inherits this one. -/
def aTo_dict : A → A
  | .aobj fs => .adict (aTdFields fs)
  | v => v

/-- The comprehension step `v.to_dict() if isinstance(v, Obj) else v`. -/
def aTd (v : A) : A :=
  match v with
  | .aobj fs => .adict (aTdFields fs)
  | w => w

def aTdFields : List (String × A) → List (String × A)
  | [] => []
  | (k, v) :: rest => (k, aTd v) :: aTdFields rest
end

mutual
/-- Embedding of a plain value into the dumbaio runtime-value type:
dicts become plain dicts, arrays plain lists. -/
def aOfJ (v : J) : A :=
  match v with
  | .dict fs => .adict (aOfJFields fs)
  | .arr xs => .plist (aOfJList xs)
  | p => .prim p

def aOfJFields : List (String × J) → List (String × A)
  | [] => []
  | (k, v) :: rest => (k, aOfJ v) :: aOfJFields rest

def aOfJList : List J → List A
  | [] => []
  | v :: rest => aOfJ v :: aOfJList rest
end

/-- Python `dict.get` on a dumbaio `Obj.__dict__`. -/
def aGet : List (String × A) → String → Option A
  | [], _ => none
  | (k, v) :: rest, key => if k = key then some v else aGet rest key

/-- The assignment `self.__dict__[name] = obj` on a dumbaio `Obj`. -/
def aSet : List (String × A) → String → A → List (String × A)
  | [], key, v => [(key, v)]
  | (k, w) :: rest, key, v =>
      if k = key then (k, v) :: rest else (k, w) :: aSet rest key v

/-- Whether a dumbaio value is Python `None`. -/
def aIsNone : A → Bool
  | .prim .null => true
  | _ => false

/-- dumbaio `Obj.__getattr__` (dumbaio.py lines 29-35): identical
lazy-insertion behaviour to the dumbot one. -/
def aObj_getattr (fs : List (String × A)) (name0 : String) :
    A × List (String × A) :=
  let name := Dumbot.rstripU name0
  match aGet fs name with
  | some v => if aIsNone v then (.aobj [], aSet fs name (.aobj []))
              else (v, fs)
  | none => (.aobj [], aSet fs name (.aobj []))

/-- Method `Obj.__bool__` in dumbaio (line 43-44): truthy iff `__dict__` is
non-empty. -/
def aObj_bool (fs : List (String × A)) : Bool :=
  !fs.isEmpty

end Dumbaio

mutual
/-- A plain value containing no list anywhere. -/
def listFree : J → Bool
  | .arr _ => false
  | .dict fs => listFreeFields fs
  | _ => true

def listFreeFields : List (String × J) → Bool
  | [] => true
  | (_, v) :: rest => listFree v && listFreeFields rest
end

/-- Lookup inside a plain dict value. -/
def dictGet (v : J) (key : String) : Option J :=
  match v with
  | .dict fs => getJ fs key
  | _ => none

mutual
theorem aTd_aConv_listFree (v : J) (h : listFree v = true) :
    Dumbaio.aTd (Dumbaio.aConv v) = Dumbaio.aOfJ v := by
  match v with
  | .dict fs =>
    have h' : listFreeFields fs = true := by simpa [listFree] using h
    simp [Dumbaio.aConv, Dumbaio.aObj_init, Dumbaio.aTd, Dumbaio.aOfJ,
          aTdFields_aConvFields_listFree fs h']
  | .arr xs => simp [listFree] at h
  | .null => simp [Dumbaio.aConv, Dumbaio.aTd, Dumbaio.aOfJ]
  | .bool b => simp [Dumbaio.aConv, Dumbaio.aTd, Dumbaio.aOfJ]
  | .int n => simp [Dumbaio.aConv, Dumbaio.aTd, Dumbaio.aOfJ]
  | .str s => simp [Dumbaio.aConv, Dumbaio.aTd, Dumbaio.aOfJ]
  | .bytes s => simp [Dumbaio.aConv, Dumbaio.aTd, Dumbaio.aOfJ]
  | .exc e => simp [Dumbaio.aConv, Dumbaio.aTd, Dumbaio.aOfJ]

theorem aTdFields_aConvFields_listFree (fs : List (String × J))
    (h : listFreeFields fs = true) :
    Dumbaio.aTdFields (Dumbaio.aConvFields fs) = Dumbaio.aOfJFields fs := by
  match fs with
  | [] => simp [Dumbaio.aConvFields, Dumbaio.aTdFields, Dumbaio.aOfJFields]
  | (k, v) :: rest =>
    have h1 : listFree v = true := by
      have := h; simp [listFreeFields, Bool.and_eq_true] at this; exact this.1
    have h2 : listFreeFields rest = true := by
      have := h; simp [listFreeFields, Bool.and_eq_true] at this; exact this.2
    simp [Dumbaio.aConvFields, Dumbaio.aTdFields, Dumbaio.aOfJFields,
          aTd_aConv_listFree v h1, aTdFields_aConvFields_listFree rest h2]
end

/-- C6 fails on the dumbaio pair: converting `{'xs': [1]}` into the
dumbaio envelope and back with `to_dict` yields `{'xs': {'data': [1]}}`
(the `Lst` inherits `Obj.to_dict`, which dumps its `__dict__` — the
`data` attribute holding the plain element list — instead of a list),
not the original structure. -/
theorem C6_counterexample :
    Dumbaio.aTo_dict (Dumbaio.aObj_init [("xs", J.arr [J.int 1])]) ≠
      Dumbaio.aOfJ (J.dict [("xs", J.arr [J.int 1])]) := by
  simp [Dumbaio.aObj_init, Dumbaio.aConvFields, Dumbaio.aConv, Dumbaio.aLst_init,
        Dumbaio.aConvList, Dumbaio.aTo_dict, Dumbaio.aTdFields, Dumbaio.aTd,
        Dumbaio.aOfJ, Dumbaio.aOfJFields, Dumbaio.aOfJList]

/-- C6 (amended): round-tripping a plain nested structure through the
envelope construction and `to_dict` is the identity for dumbot.py's
`Obj`/`Lst` pair on all plain structures, and for dumbaio.py's pair
only on structures that contain no list. -/
theorem C6_roundtrip :
    (∀ fs : List (String × J), Dumbot.to_dict (Dumbot.Obj_init fs) = .dict fs) ∧
    (∀ xs : List J, Dumbot.to_dict (Dumbot.Lst_init xs) = .arr xs) ∧
    (∀ fs : List (String × J), listFreeFields fs = true →
       Dumbaio.aTo_dict (Dumbaio.aObj_init fs) = Dumbaio.aOfJ (.dict fs)) := by
  refine ⟨Dumbot.to_dict_Obj_init, Dumbot.to_dict_Lst_init, ?_⟩
  intro fs h
  simp [Dumbaio.aObj_init, Dumbaio.aTo_dict, Dumbaio.aOfJ,
        aTdFields_aConvFields_listFree fs h]

/-- C6 witness: the amended round-trip evaluated on a concrete
list-free structure. -/
theorem C6_roundtrip_witness :
    listFreeFields [("a", J.int 1), ("b", J.dict [("c", J.str "x")])] = true ∧
    Dumbaio.aTo_dict (Dumbaio.aObj_init
        [("a", J.int 1), ("b", J.dict [("c", J.str "x")])]) =
      Dumbaio.aOfJ (.dict [("a", J.int 1), ("b", J.dict [("c", J.str "x")])]) :=
  ⟨by simp [listFreeFields, listFree],
   C6_roundtrip.2.2 [("a", J.int 1), ("b", J.dict [("c", J.str "x")])]
     (by simp [listFreeFields, listFree])⟩

theorem setO_absent (fs : List (String × Dumbot.O)) (k : String) (v : Dumbot.O)
    (h : Dumbot.getO fs k = none) : Dumbot.setO fs k v = fs ++ [(k, v)] := by
  induction fs with
  | nil => simp [Dumbot.setO]
  | cons kv rest ih =>
    obtain ⟨k0, v0⟩ := kv
    by_cases hk : k0 = k
    · simp [Dumbot.getO, hk] at h
    · simp [Dumbot.getO, hk] at h
      simp [Dumbot.setO, hk, ih h]

theorem getO_append_self (fs : List (String × Dumbot.O)) (k : String) (v : Dumbot.O)
    (h : Dumbot.getO fs k = none) : Dumbot.getO (fs ++ [(k, v)]) k = some v := by
  induction fs with
  | nil => simp [Dumbot.getO]
  | cons kv rest ih =>
    obtain ⟨k0, v0⟩ := kv
    by_cases hk : k0 = k
    · simp [Dumbot.getO, hk] at h
    · simp [Dumbot.getO, hk] at h
      simp [Dumbot.getO, hk, ih h]

theorem tdFields_append (fs gs : List (String × Dumbot.O)) :
    Dumbot.tdFields (fs ++ gs) = Dumbot.tdFields fs ++ Dumbot.tdFields gs := by
  induction fs with
  | nil => simp [Dumbot.tdFields]
  | cons kv rest ih =>
    obtain ⟨k0, v0⟩ := kv
    simp [Dumbot.tdFields, ih]

theorem getJ_tdFields_none (fs : List (String × Dumbot.O)) (k : String)
    (h : Dumbot.getO fs k = none) : getJ (Dumbot.tdFields fs) k = none := by
  induction fs with
  | nil => simp [Dumbot.tdFields, getJ]
  | cons kv rest ih =>
    obtain ⟨k0, v0⟩ := kv
    by_cases hk : k0 = k
    · simp [Dumbot.getO, hk] at h
    · simp [Dumbot.getO, hk] at h
      simp [Dumbot.tdFields, getJ, hk, ih h]

theorem getJ_append_self (fs : List (String × J)) (k : String) (v : J)
    (h : getJ fs k = none) : getJ (fs ++ [(k, v)]) k = some v := by
  induction fs with
  | nil => simp [getJ]
  | cons kv rest ih =>
    obtain ⟨k0, v0⟩ := kv
    by_cases hk : k0 = k
    · simp [getJ, hk] at h
    · simp [getJ, hk] at h
      simp [getJ, hk, ih h]

theorem aSet_absent (fs : List (String × Dumbaio.A)) (k : String) (v : Dumbaio.A)
    (h : Dumbaio.aGet fs k = none) : Dumbaio.aSet fs k v = fs ++ [(k, v)] := by
  induction fs with
  | nil => simp [Dumbaio.aSet]
  | cons kv rest ih =>
    obtain ⟨k0, v0⟩ := kv
    by_cases hk : k0 = k
    · simp [Dumbaio.aGet, hk] at h
    · simp [Dumbaio.aGet, hk] at h
      simp [Dumbaio.aSet, hk, ih h]

theorem aGet_append_self (fs : List (String × Dumbaio.A)) (k : String) (v : Dumbaio.A)
    (h : Dumbaio.aGet fs k = none) : Dumbaio.aGet (fs ++ [(k, v)]) k = some v := by
  induction fs with
  | nil => simp [Dumbaio.aGet]
  | cons kv rest ih =>
    obtain ⟨k0, v0⟩ := kv
    by_cases hk : k0 = k
    · simp [Dumbaio.aGet, hk] at h
    · simp [Dumbaio.aGet, hk] at h
      simp [Dumbaio.aGet, hk, ih h]

theorem aTdFields_append (fs gs : List (String × Dumbaio.A)) :
    Dumbaio.aTdFields (fs ++ gs) =
      Dumbaio.aTdFields fs ++ Dumbaio.aTdFields gs := by
  induction fs with
  | nil => simp [Dumbaio.aTdFields]
  | cons kv rest ih =>
    obtain ⟨k0, v0⟩ := kv
    simp [Dumbaio.aTdFields, ih]

theorem aGet_aTdFields_none (fs : List (String × Dumbaio.A)) (k : String)
    (h : Dumbaio.aGet fs k = none) :
    Dumbaio.aGet (Dumbaio.aTdFields fs) k = none := by
  induction fs with
  | nil => simp [Dumbaio.aTdFields, Dumbaio.aGet]
  | cons kv rest ih =>
    obtain ⟨k0, v0⟩ := kv
    by_cases hk : k0 = k
    · simp [Dumbaio.aGet, hk] at h
    · simp [Dumbaio.aGet, hk] at h
      simp [Dumbaio.aTdFields, Dumbaio.aGet, hk, ih h]

/-- C10: reading an absent key of an envelope is an observable
mutation.  For dumbot.py's `Obj` (both attribute access — with a name
that carries no trailing underscore to strip — and item access) and
for dumbaio.py's `Obj`: the read returns a fresh empty envelope, the
key is afterwards present mapping to that empty envelope, the envelope
is thereafter truthy (even when it was empty before: `fs` may be
`[]`), and `to_dict` thereafter contains the key mapped to `{}`. -/
theorem C10_lazy_insertion :
    (∀ (fs : List (String × Dumbot.O)) (k : String),
       Dumbot.getO fs k = none → Dumbot.rstripU k = k →
       Dumbot.Obj_getattr fs k = (.obj [], fs ++ [(k, .obj [])]) ∧
       Dumbot.getO (fs ++ [(k, .obj [])]) k = some (.obj []) ∧
       Dumbot.truthyO (.obj (fs ++ [(k, .obj [])])) = true ∧
       dictGet (Dumbot.to_dict (.obj (fs ++ [(k, .obj [])]))) k =
         some (.dict [])) ∧
    (∀ (fs : List (String × Dumbot.O)) (k : String),
       Dumbot.getO fs k = none →
       Dumbot.Obj_getitem fs k = (.obj [], fs ++ [(k, .obj [])])) ∧
    (∀ (fs : List (String × Dumbaio.A)) (k : String),
       Dumbaio.aGet fs k = none → Dumbot.rstripU k = k →
       Dumbaio.aObj_getattr fs k = (.aobj [], fs ++ [(k, .aobj [])]) ∧
       Dumbaio.aGet (fs ++ [(k, .aobj [])]) k = some (.aobj []) ∧
       Dumbaio.aObj_bool (fs ++ [(k, .aobj [])]) = true ∧
       Dumbaio.aGet
         ((fun a => match a with
                    | Dumbaio.A.adict gs => gs
                    | _ => []) (Dumbaio.aTo_dict (.aobj (fs ++ [(k, .aobj [])]))))
         k = some (.adict [])) := by
  refine ⟨?_, ?_, ?_⟩
  · intro fs k h hk
    refine ⟨?_, getO_append_self fs k _ h, by simp [Dumbot.truthyO], ?_⟩
    · simp [Dumbot.Obj_getattr, hk, h, setO_absent fs k _ h]
    · have h1 : getJ (Dumbot.tdFields fs) k = none := getJ_tdFields_none fs k h
      simp [Dumbot.to_dict, dictGet, tdFields_append, Dumbot.tdFields, Dumbot.td,
            getJ_append_self _ k _ h1]
  · intro fs k h
    simp [Dumbot.Obj_getitem, h, setO_absent fs k _ h]
  · intro fs k h hk
    refine ⟨?_, aGet_append_self fs k _ h, by simp [Dumbaio.aObj_bool], ?_⟩
    · simp [Dumbaio.aObj_getattr, hk, h, aSet_absent fs k _ h]
    · simp [Dumbaio.aTo_dict, aTdFields_append, Dumbaio.aTdFields, Dumbaio.aTd,
            aGet_append_self _ k _ (aGet_aTdFields_none fs k h)]

/-- C10 witness: the mutation observed on a concrete empty envelope
and key. -/
theorem C10_lazy_insertion_witness :
    Dumbot.Obj_getattr [] "age" = (.obj [], [("age", Dumbot.O.obj [])]) ∧
    Dumbot.Obj_getitem [] "age" = (.obj [], [("age", Dumbot.O.obj [])]) ∧
    Dumbaio.aObj_getattr [] "age" = (.aobj [], [("age", Dumbaio.A.aobj [])]) :=
  ⟨((C10_lazy_insertion.1 [] "age" rfl rfl).1),
   (C10_lazy_insertion.2.1 [] "age" rfl),
   ((C10_lazy_insertion.2.2 [] "age" rfl rfl).1)⟩

theorem get_inb_skip {M H : Type} (pre : List ((String → Option M) × H))
    (rest : List ((String → Option M) × H)) (data : String)
    (h : ∀ p ∈ pre, p.1 data = none) :
    Dumbot.get_inb (pre ++ rest) data = Dumbot.get_inb rest data := by
  induction pre with
  | nil => simp
  | cons p ps ih =>
    obtain ⟨t, f⟩ := p
    have ht : t data = none := h (t, f) (by simp)
    simp [Dumbot.get_inb, ht, ih (fun q hq => h q (by simp [hq]))]

/-- C8: `_get_inb` tries the registered pattern triggers strictly in
registration order and returns the handler and match object of the
first trigger whose match succeeds; in particular, when two triggers
that both match are registered in the order `p1, p2`, only the `p1`
handler (and its match) is returned. -/
theorem C8_first_match {M H : Type} :
    (∀ (pre : List ((String → Option M) × H)) (t : String → Option M) (f : H)
       (post : List ((String → Option M) × H)) (data : String) (m : M),
       (∀ p ∈ pre, p.1 data = none) → t data = some m →
       Dumbot.get_inb (pre ++ (t, f) :: post) data = (some f, some m)) ∧
    (∀ (t1 t2 : String → Option M) (f1 f2 : H)
       (rest : List ((String → Option M) × H)) (data : String) (m1 m2 : M),
       t1 data = some m1 → t2 data = some m2 →
       Dumbot.get_inb ((t1, f1) :: (t2, f2) :: rest) data = (some f1, some m1)) := by
  constructor
  · intro pre t f post data m hpre ht
    rw [get_inb_skip pre _ data hpre]
    simp [Dumbot.get_inb, ht]
  · intro t1 t2 f1 f2 rest data m1 m2 h1 h2
    simp [Dumbot.get_inb, h1]

/-- C8 witness: two always-matching triggers registered in order; the
first one wins. -/
theorem C8_first_match_witness :
    Dumbot.get_inb [(fun _ => some 0, 1), (fun _ => some 0, 2)] "day3" =
      (some 1, some 0) :=
  (C8_first_match.2 (fun _ => some 0) (fun _ => some 0) 1 2 [] "day3" 0 0
    rfl rfl)

/-- C9: `Bot._request` restores the pool state on every outcome: with
an admitted caller (a positive semaphore value; callers suspend at
`acquire` otherwise) and the deque invariant (`_streams` is never
empty), the semaphore value after the `finally` block equals the value
before `acquire`, the deque keeps its length, and the handle the
request ended with — the checked-out connection, the lazily opened
one, or the still-unopened `none` placeholder when opening failed — is
back at the right end of the deque.  This holds whether `send` (or the
lazy open) returned a body or failed, so a failed call never
permanently consumes pool capacity. -/
theorem C9_pool_release {S : Type} [DecidableEq S] :
    ∀ (st : Dumbot.PoolState S) (mkNew : Except PyErr S)
      (send : S → Except PyErr String),
      st.streams ≠ [] → 0 < st.sem →
      (Dumbot.bot_request st mkNew send).1.sem = st.sem ∧
      (Dumbot.bot_request st mkNew send).1.streams.length = st.streams.length ∧
      ∃ sfin, (Dumbot.bot_request st mkNew send).1.streams =
        st.streams.tail ++ [sfin] := by
  intro st mkNew send hne hsem
  obtain ⟨s0, rest, hst⟩ : ∃ s0 rest, st.streams = s0 :: rest := by
    cases h : st.streams with
    | nil => exact absurd h hne
    | cons a l => exact ⟨a, l, rfl⟩
  have hsem' : st.sem - 1 + 1 = st.sem := Nat.succ_pred_eq_of_pos hsem
  cases s0 with
  | some h0 =>
    refine ⟨?_, ?_, ?_⟩ <;> simp [Dumbot.bot_request, hst, hsem']
  | none =>
    cases mkNew with
    | ok h0 =>
      refine ⟨?_, ?_, ?_⟩ <;> simp [Dumbot.bot_request, hst, hsem']
    | error e =>
      refine ⟨?_, ?_, ?_⟩ <;> simp [Dumbot.bot_request, hst, hsem']

/-- C9 witness: a pool with one unopened slot whose lazy open fails;
the slot is back in the deque and the semaphore restored. -/
theorem C9_pool_release_witness :
    ((Dumbot.bot_request (⟨[none], [], 1⟩ : Dumbot.PoolState Nat)
        (.error (.connectionError "refused"))
        (fun _ => .error (.connectionError "reset"))).1.sem = 1) ∧
    ((Dumbot.bot_request (⟨[none], [], 1⟩ : Dumbot.PoolState Nat)
        (.error (.connectionError "refused"))
        (fun _ => .error (.connectionError "reset"))).1.streams.length = 1) :=
  ⟨(C9_pool_release (⟨[none], [], 1⟩ : Dumbot.PoolState Nat)
      (.error (.connectionError "refused"))
      (fun _ => .error (.connectionError "reset")) (by simp) (by simp)).1,
   (C9_pool_release (⟨[none], [], 1⟩ : Dumbot.PoolState Nat)
      (.error (.connectionError "refused"))
      (fun _ => .error (.connectionError "reset")) (by simp) (by simp)).2.1⟩

/-- C1 fails at the encoding stage: the multipart encoder runs outside
the `try` blocks of `request`, so a file payload missing its required
`type` key makes the call raise `KeyError('type')` to the caller
instead of returning a failure envelope (any transport and decoder
behaviour; they are never reached). -/
theorem C1_counterexample :
    Dumbot.request "TOKEN" "sendDocument"
        [("file", .dict [("file", .str "payload")])]
        "BOUNDARY" (fun _ => none) (fun _ => .ok "")
        (fun _ => .ok .null) =
      .error (.keyError "type") := by
  rfl

/-- C1 (amended): `request` never raises once the encoding stage has
succeeded — with no (or a falsy) file payload the JSON encoder is
total, and with a file payload that the multipart encoder accepts,
every transport failure and every decode failure is caught and
returned as an envelope value; only encoding-stage failures propagate
as exceptions. -/
theorem C1_never_raises_after_encode :
    ∀ (token method : String) (kwargs : List (String × J)) (boundary : String)
      (guessType : String → Option String)
      (transport : String → Except PyErr String)
      (decodeJson : String → Except PyErr J),
      (truthyJ ((getJ kwargs "file").getD .null) = false ∨
       ∃ hb, Dumbot.encode_multipart boundary guessType (removeKey kwargs "file")
               ((getJ kwargs "file").getD .null) = .ok hb) →
      ∃ env, Dumbot.request token method kwargs boundary guessType transport
               decodeJson = .ok env := by
  intro token method kwargs boundary guessType transport decodeJson h
  unfold Dumbot.request
  cases hf : truthyJ ((getJ kwargs "file").getD .null)
  · simp only [hf]
    exact ⟨_, rfl⟩
  · rcases h with h | ⟨hb, henc⟩
    · simp [h] at hf
    · simp only [hf, henc]
      exact ⟨_, rfl⟩

/-- C1 witness: a plain call (no file payload) whose transport fails
still returns an envelope value. -/
theorem C1_never_raises_after_encode_witness :
    ∃ env, Dumbot.request "TOKEN" "getMe" [] "BOUNDARY" (fun _ => none)
      (fun _ => .error (.connectionError "Connection refused"))
      (fun _ => .ok .null) = .ok env :=
  C1_never_raises_after_encode "TOKEN" "getMe" [] "BOUNDARY" (fun _ => none)
    (fun _ => .error (.connectionError "Connection refused"))
    (fun _ => .ok .null) (Or.inl rfl)


theorem request_with_payload (token method : String)
    (kwargs : List (String × J)) (boundary : String)
    (guessType : String → Option String)
    (transport : String → Except PyErr String)
    (decodeJson : String → Except PyErr J) (payload : String)
    (hfile : truthyJ ((getJ kwargs "file").getD .null) = false)
    (hsend : Dumbot.sendPayload token method
        (Dumbot.encode_json (removeKey kwargs "file")).1
        (Dumbot.encode_json (removeKey kwargs "file")).2 transport =
          .ok payload) :
    Dumbot.request token method kwargs boundary guessType transport
        decodeJson =
      .ok (match Dumbot.decode_stage decodeJson payload with
           | .error e => Dumbot.errEnvelope e (some payload)
           | .ok deco => Dumbot.wrap_result deco) := by
  unfold Dumbot.request
  simp only [hfile, Bool.false_eq_true, if_false]
  show Except.ok _ = _
  rw [hsend]

theorem request_transport_failure (token method : String)
    (kwargs : List (String × J)) (boundary : String)
    (guessType : String → Option String)
    (transport : String → Except PyErr String)
    (decodeJson : String → Except PyErr J) (e : PyErr)
    (hfile : truthyJ ((getJ kwargs "file").getD .null) = false)
    (hsend : Dumbot.sendPayload token method
        (Dumbot.encode_json (removeKey kwargs "file")).1
        (Dumbot.encode_json (removeKey kwargs "file")).2 transport =
          .error e) :
    Dumbot.request token method kwargs boundary guessType transport
        decodeJson = .ok (Dumbot.errEnvelope e none) := by
  unfold Dumbot.request
  simp only [hfile, Bool.false_eq_true, if_false]
  show Except.ok _ = _
  rw [hsend]

theorem decode_stage_remote_error (decodeJson : String → Except PyErr J)
    (payload : String) (c : Int) (d : String)
    (hdec : decodeJson payload = .ok (.dict [("ok", .bool false),
      ("error_code", .int c), ("description", .str d)])) :
    Dumbot.decode_stage decodeJson payload =
      .ok (.dict [("ok", .bool false), ("error_code", .int c),
                  ("description", .str d)]) := by
  unfold Dumbot.decode_stage
  rw [hdec]
  rfl

theorem decode_stage_failure (decodeJson : String → Except PyErr J)
    (payload : String) (e : PyErr)
    (hdec : decodeJson payload = .error e) :
    Dumbot.decode_stage decodeJson payload = .error e := by
  unfold Dumbot.decode_stage
  rw [hdec]
  rfl

theorem wrap_remote_error (c : Int) (d : String) :
    Dumbot.wrap_result (.dict [("ok", .bool false), ("error_code", .int c),
      ("description", .str d)]) =
      .obj [("ok", .prim (.bool false)), ("error_code", .prim (.int c)),
            ("description", .prim (.str d))] := by
  simp [Dumbot.wrap_result, getJ, setJ, Dumbot.Obj_init, Dumbot.convFields,
        Dumbot.conv]

/-- C5: a remote reply decoding to a JSON object with `ok=false`,
`error_code=c` and `description=d` is returned by `request` as an
envelope with exactly those `ok`/`error_code`/`description` values;
every transport failure and every decode failure instead yields the
failure envelope whose `error_code` is `-1`; hence a remote-reported
error with `c ≠ -1` is distinguishable from a transport failure by its
`error_code` attribute. -/
theorem C5_error_envelopes :
    (∀ (token method : String) (kwargs : List (String × J)) (boundary : String)
       (guessType : String → Option String)
       (transport : String → Except PyErr String)
       (decodeJson : String → Except PyErr J) (payload : String)
       (c : Int) (d : String),
       truthyJ ((getJ kwargs "file").getD .null) = false →
       Dumbot.sendPayload token method
         (Dumbot.encode_json (removeKey kwargs "file")).1
         (Dumbot.encode_json (removeKey kwargs "file")).2 transport =
           .ok payload →
       decodeJson payload = .ok (.dict [("ok", .bool false),
         ("error_code", .int c), ("description", .str d)]) →
       Dumbot.request token method kwargs boundary guessType transport
           decodeJson =
         .ok (.obj [("ok", .prim (.bool false)),
                    ("error_code", .prim (.int c)),
                    ("description", .prim (.str d))])) ∧
    (∀ (token method : String) (kwargs : List (String × J)) (boundary : String)
       (guessType : String → Option String)
       (transport : String → Except PyErr String)
       (decodeJson : String → Except PyErr J) (e : PyErr),
       truthyJ ((getJ kwargs "file").getD .null) = false →
       Dumbot.sendPayload token method
         (Dumbot.encode_json (removeKey kwargs "file")).1
         (Dumbot.encode_json (removeKey kwargs "file")).2 transport =
           .error e →
       Dumbot.request token method kwargs boundary guessType transport
           decodeJson = .ok (Dumbot.errEnvelope e none)) ∧
    (∀ (token method : String) (kwargs : List (String × J)) (boundary : String)
       (guessType : String → Option String)
       (transport : String → Except PyErr String)
       (decodeJson : String → Except PyErr J) (payload : String) (e : PyErr),
       truthyJ ((getJ kwargs "file").getD .null) = false →
       Dumbot.sendPayload token method
         (Dumbot.encode_json (removeKey kwargs "file")).1
         (Dumbot.encode_json (removeKey kwargs "file")).2 transport =
           .ok payload →
       decodeJson payload = .error e →
       Dumbot.request token method kwargs boundary guessType transport
           decodeJson = .ok (Dumbot.errEnvelope e (some payload))) ∧
    (∀ (c : Int) (d : String) (e : PyErr) (p : Option String), c ≠ -1 →
       Dumbot.attrVal (.obj [("ok", .prim (.bool false)),
                             ("error_code", .prim (.int c)),
                             ("description", .prim (.str d))]) "error_code" ≠
       Dumbot.attrVal (Dumbot.errEnvelope e p) "error_code") := by
  refine ⟨?_, ?_, ?_, ?_⟩
  · intro token method kwargs boundary guessType transport decodeJson payload
      c d hfile hsend hdec
    rw [request_with_payload token method kwargs boundary guessType transport
          decodeJson payload hfile hsend,
        decode_stage_remote_error decodeJson payload c d hdec]
    show Except.ok (Dumbot.wrap_result _) = _
    rw [wrap_remote_error c d]
  · intro token method kwargs boundary guessType transport decodeJson e
      hfile hsend
    exact request_transport_failure token method kwargs boundary guessType
      transport decodeJson e hfile hsend
  · intro token method kwargs boundary guessType transport decodeJson payload
      e hfile hsend hdec
    rw [request_with_payload token method kwargs boundary guessType transport
          decodeJson payload hfile hsend,
        decode_stage_failure decodeJson payload e hdec]
  · intro c d e p hc
    simp [Dumbot.attrVal, Dumbot.O_getattr, Dumbot.Obj_getattr, Dumbot.getO,
          Dumbot.rstripU, Dumbot.errEnvelope, Dumbot.isNone, hc]

/-- C5 witness: a concrete remote error (420, "FLOOD_WAIT") passed
through, next to a concrete transport failure envelope. -/
theorem C5_error_envelopes_witness :
    Dumbot.request "TOKEN" "getMe" [] "B" (fun _ => none)
        (fun _ => .ok "body")
        (fun _ => .ok (.dict [("ok", .bool false), ("error_code", .int 420),
          ("description", .str "FLOOD_WAIT")])) =
      .ok (.obj [("ok", .prim (.bool false)),
                 ("error_code", .prim (.int 420)),
                 ("description", .prim (.str "FLOOD_WAIT"))]) ∧
    Dumbot.request "TOKEN" "getMe" [] "B" (fun _ => none)
        (fun _ => .error (.connectionError "Connection refused"))
        (fun _ => .ok .null) =
      .ok (Dumbot.errEnvelope (.connectionError "Connection refused") none) :=
  ⟨C5_error_envelopes.1 "TOKEN" "getMe" [] "B" (fun _ => none)
     (fun _ => .ok "body")
     (fun _ => .ok (.dict [("ok", .bool false), ("error_code", .int 420),
       ("description", .str "FLOOD_WAIT")])) "body" 420 "FLOOD_WAIT"
     rfl rfl rfl,
   C5_error_envelopes.2.1 "TOKEN" "getMe" [] "B" (fun _ => none)
     (fun _ => .error (.connectionError "Connection refused"))
     (fun _ => .ok .null) (.connectionError "Connection refused")
     rfl rfl⟩

/-- C2 fails: a non-ok `getUpdates` result whose cause is a
connection-type error (here the `ConnectionError('Connection closed')`
raised by `_Stream.send` on malformed framing, wrapped by `request`
into a failure envelope) makes the poll loop body `return` — the loop
terminates instead of continuing with the next iteration. -/
theorem C2_counterexample :
    Dumbot.runStep 5
        (Dumbot.errEnvelope (.connectionError "Connection closed") none) =
      .exit := by
  rfl

/-- C2 (amended): during the running poll loop, a non-ok `getUpdates`
result caused by a connection-type error (connection refused/reset,
truncated read, cancellation — the `OSError`/`IncompleteReadError`/
`CancelledError` family) makes the loop log and terminate normally
(`return`); a non-ok result that is not connection-caused continues
with the next iteration, cursor unchanged, unless its remote error
code is 401, which alone raises (`UnauthorizedError`). -/
theorem C2_loop_termination :
    (∀ (last : Int) (e : PyErr) (p : Option String), e.isConnClass = true →
       Dumbot.runStep last (Dumbot.errEnvelope e p) = .exit) ∧
    (∀ (last c : Int) (d : String), c ≠ 401 →
       Dumbot.runStep last (.obj [("ok", .prim (.bool false)),
         ("error_code", .prim (.int c)), ("description", .prim (.str d))]) =
         .cont last []) ∧
    (∀ (last : Int) (d : String),
       Dumbot.runStep last (.obj [("ok", .prim (.bool false)),
         ("error_code", .prim (.int 401)),
         ("description", .prim (.str d))]) = .unauthorized) := by
  refine ⟨?_, ?_, ?_⟩
  · intro last e p h
    have h1 : Dumbot.O_getattr (Dumbot.errEnvelope e p) "ok" =
        some (.prim (.bool false), Dumbot.errEnvelope e p) := rfl
    have h2 : Dumbot.O_getattr (Dumbot.errEnvelope e p) "error" =
        some (.prim (.exc e), Dumbot.errEnvelope e p) := rfl
    simp [Dumbot.runStep, h1, h2, Dumbot.truthyO, truthyJ, Dumbot.isConnExc, h]
  · intro last c d hc
    have h1 : Dumbot.O_getattr (Dumbot.O.obj [("ok", .prim (.bool false)),
        ("error_code", .prim (.int c)), ("description", .prim (.str d))])
        "ok" = some (.prim (.bool false), .obj [("ok", .prim (.bool false)),
        ("error_code", .prim (.int c)), ("description", .prim (.str d))]) :=
      rfl
    have h2 : Dumbot.O_getattr (Dumbot.O.obj [("ok", .prim (.bool false)),
        ("error_code", .prim (.int c)), ("description", .prim (.str d))])
        "error" = some (.obj [], .obj [("ok", .prim (.bool false)),
        ("error_code", .prim (.int c)), ("description", .prim (.str d)),
        ("error", .obj [])]) := rfl
    have h3 : Dumbot.O_getattr (Dumbot.O.obj [("ok", .prim (.bool false)),
        ("error_code", .prim (.int c)), ("description", .prim (.str d)),
        ("error", .obj [])]) "error_code" =
        some (.prim (.int c), .obj [("ok", .prim (.bool false)),
        ("error_code", .prim (.int c)), ("description", .prim (.str d)),
        ("error", .obj [])]) := rfl
    simp [Dumbot.runStep, h1, h2, h3, Dumbot.truthyO, truthyJ,
          Dumbot.isConnExc, Dumbot.isInt401, hc]
  · intro last d
    have h1 : Dumbot.O_getattr (Dumbot.O.obj [("ok", .prim (.bool false)),
        ("error_code", .prim (.int 401)), ("description", .prim (.str d))])
        "ok" = some (.prim (.bool false), .obj [("ok", .prim (.bool false)),
        ("error_code", .prim (.int 401)), ("description", .prim (.str d))]) :=
      rfl
    have h2 : Dumbot.O_getattr (Dumbot.O.obj [("ok", .prim (.bool false)),
        ("error_code", .prim (.int 401)), ("description", .prim (.str d))])
        "error" = some (.obj [], .obj [("ok", .prim (.bool false)),
        ("error_code", .prim (.int 401)), ("description", .prim (.str d)),
        ("error", .obj [])]) := rfl
    have h3 : Dumbot.O_getattr (Dumbot.O.obj [("ok", .prim (.bool false)),
        ("error_code", .prim (.int 401)), ("description", .prim (.str d)),
        ("error", .obj [])]) "error_code" =
        some (.prim (.int 401), .obj [("ok", .prim (.bool false)),
        ("error_code", .prim (.int 401)), ("description", .prim (.str d)),
        ("error", .obj [])]) := rfl
    simp [Dumbot.runStep, h1, h2, h3, Dumbot.truthyO, truthyJ,
          Dumbot.isConnExc, Dumbot.isInt401]

/-- C2 witness: the amendment evaluated at a reset connection, at a
non-fatal remote error 420, and at the fatal 401. -/
theorem C2_loop_termination_witness :
    Dumbot.runStep 7 (Dumbot.errEnvelope (.osError "Connection reset") none) =
      .exit ∧
    Dumbot.runStep 7 (.obj [("ok", .prim (.bool false)),
      ("error_code", .prim (.int 420)),
      ("description", .prim (.str "FLOOD_WAIT"))]) = .cont 7 [] ∧
    Dumbot.runStep 7 (.obj [("ok", .prim (.bool false)),
      ("error_code", .prim (.int 401)),
      ("description", .prim (.str "Unauthorized"))]) = .unauthorized :=
  ⟨C2_loop_termination.1 7 (.osError "Connection reset") none rfl,
   C2_loop_termination.2.1 7 420 "FLOOD_WAIT" (by decide),
   C2_loop_termination.2.2 7 "Unauthorized"⟩

theorem runStep_cont_cases (last n : Int) (updates : Dumbot.O)
    (batch : List Dumbot.O)
    (hr : Dumbot.runStep last updates = .cont n batch) :
    n = last ∨ Dumbot.lastUpdateId updates = some n := by
  match updates with
  | .prim p => simp [Dumbot.runStep, Dumbot.O_getattr] at hr
  | .obj fs =>
    unfold Dumbot.runStep at hr
    simp only [Dumbot.O_getattr] at hr
    split at hr
    · split at hr
      · simp at hr
      · split at hr
        · simp at hr
        · left
          injection hr with h1 h2
          omega
    · split at hr
      · left
        injection hr with h1 h2
        omega
      · split at hr
        · injection hr with h1 h2
          subst h1
          simp [Dumbot.lastUpdateId] at *
        · simp at hr
  | .lst attrs xs =>
    unfold Dumbot.runStep at hr
    simp only [Dumbot.O_getattr] at hr
    split at hr
    · split at hr
      · simp at hr
      · split at hr
        · simp at hr
        · left
          injection hr with h1 h2
          omega
    · split at hr
      · left
        injection hr with h1 h2
        omega
      · split at hr
        · next m hm =>
          injection hr with h1 h2
          subst h1
          right
          exact hm
        · simp at hr

theorem runStep_cont_ge (last : Int) (updates : Dumbot.O)
    (h : Dumbot.HonorsOffset last updates) (n : Int) (batch : List Dumbot.O)
    (hr : Dumbot.runStep last updates = .cont n batch) : last ≤ n := by
  rcases runStep_cont_cases last n updates batch hr with h1 | h1
  · omega
  · have := h n h1
    omega

theorem runSeq_ge (last : Int) (rs : List Dumbot.O)
    (h : Dumbot.HonorsSeq last rs) : last ≤ Dumbot.runSeq last rs := by
  induction rs generalizing last with
  | nil => simp [Dumbot.runSeq]
  | cons r rest ih =>
    obtain ⟨h1, h2⟩ := h
    unfold Dumbot.runSeq
    cases hr : Dumbot.runStep last r with
    | cont n batch =>
      have hler : last ≤ n := runStep_cont_ge last r h1 n batch hr
      have hstep : Dumbot.stepCursor last r = n := by
        simp [Dumbot.stepCursor, hr]
      rw [hstep] at h2
      exact le_trans hler (ih n h2)
    | exit => exact le_refl last
    | unauthorized => exact le_refl last
    | illTyped => exact le_refl last

/-- C4: the poll cursor is monotone.  When the remote honours the
requested offset (each update id in a reply is at least
`cursor + 1`), a loop iteration never sets the cursor to a smaller
value; a non-ok `getUpdates` result that continues the loop leaves it
unchanged and dispatches nothing; an ok empty batch leaves it
unchanged; and across every sequence of iterations the final cursor is
at least the initial one.  (Dispatching — `_on_update` — never touches
the cursor: `on_update_model` has no cursor parameter, so handler
failures inside a batch cannot roll it back.) -/
theorem C4_cursor_monotone :
    (∀ (last : Int) (updates : Dumbot.O), Dumbot.HonorsOffset last updates →
       ∀ (n : Int) (batch : List Dumbot.O),
         Dumbot.runStep last updates = .cont n batch → last ≤ n) ∧
    (∀ (last c : Int) (d : String), c ≠ 401 →
       Dumbot.runStep last (.obj [("ok", .prim (.bool false)),
         ("error_code", .prim (.int c)),
         ("description", .prim (.str d))]) = .cont last []) ∧
    (∀ last : Int,
       Dumbot.runStep last (.lst [("ok", .prim (.bool true))] []) =
         .cont last []) ∧
    (∀ (last : Int) (rs : List Dumbot.O), Dumbot.HonorsSeq last rs →
       last ≤ Dumbot.runSeq last rs) := by
  refine ⟨?_, ?_, ?_, ?_⟩
  · intro last updates h n batch hr
    exact runStep_cont_ge last updates h n batch hr
  · intro last c d hc
    have h1 : Dumbot.O_getattr (Dumbot.O.obj [("ok", .prim (.bool false)),
        ("error_code", .prim (.int c)), ("description", .prim (.str d))])
        "ok" = some (.prim (.bool false), .obj [("ok", .prim (.bool false)),
        ("error_code", .prim (.int c)), ("description", .prim (.str d))]) :=
      rfl
    have h2 : Dumbot.O_getattr (Dumbot.O.obj [("ok", .prim (.bool false)),
        ("error_code", .prim (.int c)), ("description", .prim (.str d))])
        "error" = some (.obj [], .obj [("ok", .prim (.bool false)),
        ("error_code", .prim (.int c)), ("description", .prim (.str d)),
        ("error", .obj [])]) := rfl
    have h3 : Dumbot.O_getattr (Dumbot.O.obj [("ok", .prim (.bool false)),
        ("error_code", .prim (.int c)), ("description", .prim (.str d)),
        ("error", .obj [])]) "error_code" =
        some (.prim (.int c), .obj [("ok", .prim (.bool false)),
        ("error_code", .prim (.int c)), ("description", .prim (.str d)),
        ("error", .obj [])]) := rfl
    simp [Dumbot.runStep, h1, h2, h3, Dumbot.truthyO, truthyJ,
          Dumbot.isConnExc, Dumbot.isInt401, hc]
  · intro last
    rfl
  · intro last rs h
    exact runSeq_ge last rs h

/-- C4 witness: a batch honouring the requested offset advances the
cursor from 5 to 8; the monotonicity theorem applied to that batch and
to a two-reply sequence. -/
theorem C4_cursor_monotone_witness :
    ((5 : Int) ≤ 8) ∧
    Dumbot.runStep 5 (.lst [("ok", .prim (.bool true))]
        [.obj [("update_id", .prim (.int 8))]]) =
      .cont 8 [.obj [("update_id", .prim (.int 8))]] ∧
    Dumbot.runStep 5 (.obj [("ok", .prim (.bool false)),
      ("error_code", .prim (.int 420)),
      ("description", .prim (.str "FLOOD_WAIT"))]) = .cont 5 [] ∧
    ((5 : Int) ≤ Dumbot.runSeq 5 [.lst [("ok", .prim (.bool true))]
        [.obj [("update_id", .prim (.int 8))]]]) := by
  refine ⟨?_, rfl, C4_cursor_monotone.2.1 5 420 "FLOOD_WAIT" (by decide), ?_⟩
  · refine C4_cursor_monotone.1 5 (.lst [("ok", .prim (.bool true))]
      [.obj [("update_id", .prim (.int 8))]]) ?_ 8
      [.obj [("update_id", .prim (.int 8))]] rfl
    intro n hn
    rw [show Dumbot.lastUpdateId (.lst [("ok", .prim (.bool true))]
      [.obj [("update_id", .prim (.int 8))]]) = some 8 from rfl] at hn
    cases hn
    omega
  · refine C4_cursor_monotone.2.2.2 5 [.lst [("ok", .prim (.bool true))]
      [.obj [("update_id", .prim (.int 8))]]] ⟨?_, trivial⟩
    intro n hn
    rw [show Dumbot.lastUpdateId (.lst [("ok", .prim (.bool true))]
      [.obj [("update_id", .prim (.int 8))]]) = some 8 from rfl] at hn
    cases hn
    omega

/-- C3 fails: the acknowledgement call is made inside the `try` block
strictly after awaiting the matched handler, so a handler that raises
lands in the `except` branch and the acknowledgement is skipped — for
this event zero `answerCallbackQuery` calls are issued, not exactly
one. -/
theorem C3_counterexample :
    Dumbot.countAcks (Dumbot.on_update_model
      [((fun _ => some 0 : String → Option Nat), 7)] [] []
      (fun _ => .exn) .ok
      [("callback_query", .obj [("data", .prim (.str "day3")),
                                ("id", .prim (.str "q1"))])]) = 0 := by
  rfl

/-- C3 (amended): for a callback-button event (truthy `callback_query`
with a string `data` and a present `id`), exactly one acknowledgement
call is issued when the invoked handler — the first matching pattern
handler, or the default `on_update` when none matches — returns
normally, and none is issued when it raises (its exception lands in
the `except` branch before the acknowledgement). -/
theorem C3_ack_on_normal_return {M : Type} :
    ∀ (inb : List ((String → Option M) × Nat))
      (cmdT : List (List Char × Nat)) (meU : List Char)
      (outc : Nat → Dumbot.HOut) (defOutc : Dumbot.HOut)
      (updateFs cqFs : List (String × Dumbot.O)) (s : String)
      (idv : Dumbot.O),
      Dumbot.getO updateFs "callback_query" = some (.obj cqFs) →
      Dumbot.getO cqFs "data" = some (.prim (.str s)) →
      Dumbot.getO cqFs "id" = some idv →
      Dumbot.isNone idv = false →
      (∀ h, (Dumbot.get_inb inb s).1 = some h →
         Dumbot.countAcks (Dumbot.on_update_model inb cmdT meU outc defOutc
           updateFs) = if outc h = .ok then 1 else 0) ∧
      ((Dumbot.get_inb inb s).1 = none →
         Dumbot.countAcks (Dumbot.on_update_model inb cmdT meU outc defOutc
           updateFs) = if defOutc = .ok then 1 else 0) := by
  intro inb cmdT meU outc defOutc updateFs cqFs s idv hcq hdata hid hidn
  have hne : Dumbot.truthyO (.obj cqFs) = true := by
    cases cqFs with
    | nil => simp [Dumbot.getO] at hdata
    | cons a l => simp [Dumbot.truthyO]
  have e1 : Dumbot.Obj_getattr updateFs "callback_query" =
      (.obj cqFs, updateFs) := by
    simp [Dumbot.Obj_getattr,
          show Dumbot.rstripU "callback_query" = "callback_query" from rfl,
          hcq, Dumbot.isNone]
  have e2 : Dumbot.O_getattr (Dumbot.O.obj cqFs) "data" =
      some (.prim (.str s), .obj cqFs) := by
    simp [Dumbot.O_getattr, Dumbot.Obj_getattr,
          show Dumbot.rstripU "data" = "data" from rfl, hdata, Dumbot.isNone]
  have e3 : Dumbot.O_getattr (Dumbot.O.obj cqFs) "id" =
      some (idv, .obj cqFs) := by
    simp [Dumbot.O_getattr, Dumbot.Obj_getattr,
          show Dumbot.rstripU "id" = "id" from rfl, hid, hidn]
  constructor
  · intro h hh
    cases inb with
    | nil => simp [Dumbot.get_inb] at hh
    | cons p ps =>
      simp only [Dumbot.on_update_model, e1, hne, e2, if_true]
      simp only [hh]
      cases houtc : outc h with
      | ok => simp [houtc, e3, Dumbot.countAcks]
      | exn => simp [houtc, Dumbot.countAcks]
  · intro hh
    cases inb with
    | nil =>
      simp only [Dumbot.on_update_model, e1, hne, e2, if_true]
      cases hdefo : defOutc with
      | ok => simp [hdefo, e3, Dumbot.countAcks]
      | exn => simp [hdefo, Dumbot.countAcks]
    | cons p ps =>
      simp only [Dumbot.on_update_model, e1, hne, e2, if_true]
      simp only [hh]
      cases hdefo : defOutc with
      | ok => simp [hdefo, e3, Dumbot.countAcks]
      | exn => simp [hdefo, Dumbot.countAcks]

/-- C3 witness: a matching pattern handler that returns normally
produces exactly one acknowledgement. -/
theorem C3_ack_on_normal_return_witness :
    Dumbot.countAcks (Dumbot.on_update_model
      [((fun _ => some 0 : String → Option Nat), 3)] [] []
      (fun _ => .ok) .exn
      [("callback_query", .obj [("data", .prim (.str "day3")),
                                ("id", .prim (.str "q1"))])]) = 1 := by
  have h := (C3_ack_on_normal_return
      [((fun _ => some 0 : String → Option Nat), 3)] [] []
      (fun _ => .ok) .exn
      [("callback_query", .obj [("data", .prim (.str "day3")),
                                ("id", .prim (.str "q1"))])]
      [("data", .prim (.str "day3")), ("id", .prim (.str "q1"))]
      "day3" (.prim (.str "q1")) rfl rfl rfl rfl).1 3 rfl
  simpa using h

theorem pySliceFrom1_full (xs : List Char) :
    Dumbot.pySliceFrom1 xs (xs.length : Int) = xs.drop 1 := by
  unfold Dumbot.pySliceFrom1
  have h0 : ¬((xs.length : Int) < 0) := Int.not_lt.mpr (Int.natCast_nonneg _)
  simp [h0]

theorem findIdx?_at_none (l : List Char) (i : Nat) (h : '@' ∉ l) :
    List.findIdx? (fun c => c = '@') l i = none := by
  induction l generalizing i with
  | nil => rfl
  | cons a as ih =>
    rw [List.findIdx?_cons]
    have ha : ¬(a = '@') := fun hh => h (by simp [hh])
    simp only [ha, decide_eq_false, Bool.false_eq_true, if_false]
    exact ih (i + 1) (fun hm => h (List.mem_cons_of_mem a hm))

theorem findIdx?_at_append (l r : List Char) (i : Nat) (h : '@' ∉ l) :
    List.findIdx? (fun c => c = '@') (l ++ '@' :: r) i = some (l.length + i) := by
  induction l generalizing i with
  | nil => rw [List.nil_append, List.findIdx?_cons]; simp
  | cons a as ih =>
    rw [List.cons_append, List.findIdx?_cons]
    have ha : ¬(a = '@') := fun hh => h (by simp [hh])
    simp only [ha, decide_eq_false, Bool.false_eq_true, if_false]
    rw [ih (i + 1) (fun hm => h (List.mem_cons_of_mem a hm))]
    simp [List.length_cons]
    omega

theorem drop_append_cons_length (l r : List Char) (x : Char) :
    (l ++ x :: r).drop (l.length + 1) = r := by
  have h1 : l ++ x :: r = (l ++ [x]) ++ r := by simp
  have h2 : l.length + 1 = (l ++ [x]).length := by simp
  rw [h1, h2, List.drop_left]

theorem take_append_cons_length (l r : List Char) (x : Char) :
    (l ++ x :: r).take l.length = l := by
  have h1 : l ++ x :: r = l ++ (x :: r) := rfl
  rw [h1, List.take_left]

theorem casefold_append_at (c sfx : List Char) :
    Dumbot.casefold (c ++ '@' :: sfx) =
      Dumbot.casefold c ++ '@' :: Dumbot.casefold sfx := by
  simp [Dumbot.casefold, show Char.toLower '@' = '@' from rfl]

/-- The command-token resolution tail of `_get_cmd` (dumbot.py lines
508-512), restated over an already-sliced, already-casefolded token
for the lemmas below. -/
def cmdResolve (triggers : List (List Char × Nat)) (meU : List Char)
    (cmd : List Char) : Except Unit (Option Nat) :=
  match cmd.findIdx? (fun c => c = '@') with
  | none => .ok (Dumbot.lookupCmd triggers cmd)
  | some usr =>
    if cmd.drop (usr + 1) = Dumbot.casefold meU then
      .ok (Dumbot.lookupCmd triggers (cmd.take usr))
    else .ok none

theorem get_cmd_token (a : List Char × Nat) (l : List (List Char × Nat))
    (meU : List Char) (c0 : Char) (body : List Char) :
    Dumbot.get_cmd (a :: l) meU (Dumbot.mkCmdMsg (c0 :: body)) =
      cmdResolve (a :: l) meU (Dumbot.casefold body) := by
  have hs : Dumbot.pySliceFrom1 (c0 :: body) ((c0 :: body).length : Int) =
      body := by
    rw [pySliceFrom1_full]
    rfl
  calc Dumbot.get_cmd (a :: l) meU (Dumbot.mkCmdMsg (c0 :: body))
      = cmdResolve (a :: l) meU (Dumbot.casefold
          (Dumbot.pySliceFrom1 (c0 :: body) ((c0 :: body).length : Int))) :=
        rfl
    _ = cmdResolve (a :: l) meU (Dumbot.casefold body) := by rw [hs]

theorem cmdResolve_at (triggers : List (List Char × Nat))
    (meU cmd rest : List Char) (hat : '@' ∉ cmd) :
    cmdResolve triggers meU (cmd ++ '@' :: rest) =
      if rest = Dumbot.casefold meU then
        .ok (Dumbot.lookupCmd triggers cmd)
      else .ok none := by
  unfold cmdResolve
  simp only [findIdx?_at_append cmd rest 0 hat, Nat.add_zero,
             drop_append_cons_length, take_append_cons_length]

theorem cmdResolve_noat (triggers : List (List Char × Nat))
    (meU cmd : List Char) (hat : '@' ∉ cmd) :
    cmdResolve triggers meU cmd = .ok (Dumbot.lookupCmd triggers cmd) := by
  unfold cmdResolve
  simp only [findIdx?_at_none cmd 0 hat]

/-- C7: command resolution with a registered (lowercase, `@`-free)
command `cmd` and own username `mybot`, on a text message carrying a
`bot_command` entity at offset zero spanning the whole token: an
`@`-addressed token whose suffix differs case-insensitively from
`mybot` never resolves to the `cmd` handler (resolution yields no
handler at all); a token addressed `@mybot` (compared
case-insensitively) and the bare token both resolve to the registered
handler. -/
theorem C7_command_addressing :
    ∀ (a : List Char × Nat) (l : List (List Char × Nat))
      (cmd mybot : List Char) (h : Nat),
      Dumbot.lookupCmd (a :: l) cmd = some h →
      '@' ∉ cmd →
      (∀ (c sfx : List Char), Dumbot.casefold c = cmd →
         Dumbot.casefold sfx ≠ Dumbot.casefold mybot →
         Dumbot.get_cmd (a :: l) mybot
           (Dumbot.mkCmdMsg ('/' :: (c ++ '@' :: sfx))) = .ok none) ∧
      (∀ (c sfx : List Char), Dumbot.casefold c = cmd →
         Dumbot.casefold sfx = Dumbot.casefold mybot →
         Dumbot.get_cmd (a :: l) mybot
           (Dumbot.mkCmdMsg ('/' :: (c ++ '@' :: sfx))) = .ok (some h)) ∧
      (∀ c : List Char, Dumbot.casefold c = cmd →
         Dumbot.get_cmd (a :: l) mybot (Dumbot.mkCmdMsg ('/' :: c)) =
           .ok (some h)) := by
  intro a l cmd mybot h hlook hat
  refine ⟨?_, ?_, ?_⟩
  · intro c sfx hc hne
    rw [get_cmd_token, casefold_append_at, hc, cmdResolve_at _ _ _ _ hat,
        if_neg hne]
  · intro c sfx hc he
    rw [get_cmd_token, casefold_append_at, hc, cmdResolve_at _ _ _ _ hat,
        if_pos he, hlook]
  · intro c hc
    rw [get_cmd_token, hc, cmdResolve_noat _ _ _ hat, hlook]

/-- C7 witness: command `cmd` registered for handler 0, own username
`mybot`; `/cmd@otherbot` does not resolve, `/CMD@MyBot` and `/cmd`
resolve to handler 0. -/
theorem C7_command_addressing_witness :
    Dumbot.get_cmd [(['c', 'm', 'd'], 0)] ['m', 'y', 'b', 'o', 't']
        (Dumbot.mkCmdMsg
          ('/' :: (['c', 'm', 'd'] ++ '@' ::
            ['o', 't', 'h', 'e', 'r', 'b', 'o', 't']))) = .ok none ∧
    Dumbot.get_cmd [(['c', 'm', 'd'], 0)] ['m', 'y', 'b', 'o', 't']
        (Dumbot.mkCmdMsg
          ('/' :: (['C', 'M', 'D'] ++ '@' ::
            ['M', 'y', 'B', 'o', 't']))) = .ok (some 0) ∧
    Dumbot.get_cmd [(['c', 'm', 'd'], 0)] ['m', 'y', 'b', 'o', 't']
        (Dumbot.mkCmdMsg ('/' :: ['c', 'm', 'd'])) = .ok (some 0) :=
  ⟨(C7_command_addressing (['c', 'm', 'd'], 0) [] ['c', 'm', 'd']
      ['m', 'y', 'b', 'o', 't'] 0 rfl (by decide)).1
      ['c', 'm', 'd'] ['o', 't', 'h', 'e', 'r', 'b', 'o', 't']
      (by decide) (by decide),
   (C7_command_addressing (['c', 'm', 'd'], 0) [] ['c', 'm', 'd']
      ['m', 'y', 'b', 'o', 't'] 0 rfl (by decide)).2.1
      ['C', 'M', 'D'] ['M', 'y', 'B', 'o', 't'] (by decide) (by decide),
   (C7_command_addressing (['c', 'm', 'd'], 0) [] ['c', 'm', 'd']
      ['m', 'y', 'b', 'o', 't'] 0 rfl (by decide)).2.2
      ['c', 'm', 'd'] (by decide)⟩
